import Mathlib

/-!
Verification of the Sentinel core: the situation analyzer
(`src/ai/analyzer.ts`), the schema synthesizer (`src/ai/responses.ts`,
`getResponseForIntent` and the five response templates), and the
composition engine (`SentinelComposition.tsx` plus the four layout
strategies and the component registry).

The embedding is a direct translation of the TypeScript source:

* The intent/urgency regular-expression tables are translated into a small
  executable matcher over lists of pattern atoms (literal runs, whitespace
  runs, character classes, word boundaries).  All source regexes carry the
  `i` flag, so the matcher lowercases the input once and the literals are
  written in lowercase.  Optional groups and alternations in the source
  regexes are expanded at the pattern level: `RegExp.test` only asks for
  the existence of a match, so a trailing optional group such as
  `(ure|ing|ed)?` never changes the result, and a two-way alternation
  becomes the disjunction of two atom lists.  Each pattern definition below
  carries the original regex in a comment.

* JavaScript `Array.prototype.sort` (stable as of ES2019) is modelled by a
  stable insertion sort with the same comparator.

* Numbers are modelled by `Rat`; the decimal literals of the source are
  exact in this model and every claim below is stated at the level of the
  source formulas.

* Runtime-level string dispatch (the `switch` on intent in
  `getResponseForIntent`, the `layoutMap[...] ?? GridLayout` lookup, the
  component registry) is modelled over `String`, because those code paths
  are exercised with values outside the static TypeScript unions (the
  remote-provider boundary), and several claims quantify over such values.
  `layoutMap` and `componentRegistry` are plain object literals, so a
  bracket lookup traverses the JS prototype chain: a key that names an
  `Object.prototype` member ("toString", "constructor", …) yields the
  inherited value, which is non-nullish, so the `?? GridLayout` and
  `?? null` fallbacks do not fire for it.  The `switch` on intent uses
  strict equality and has no such issue.

* `props` of a component entry is a presentational payload that none of the
  analyzer, synthesizer selection logic or composition engine ever
  inspects (it is passed through opaquely to the rendering layer, which is
  out of scope); the embedding therefore omits the `props` field.
-/

namespace Sentinel

/-! ## Pattern matcher

A tiny matcher for the fragment of regular expressions used by the
analyzer tables: literal character runs, `\s+`, `\s*`, the class `[\s-]`,
and the word boundary `\b`.  `reTest` mirrors `RegExp.prototype.test`:
it scans every start position of the (lowercased) input.
-/

/-- Whitespace characters, as matched by `\s` on the inputs in scope. -/
def isWs (c : Char) : Bool :=
  c == ' ' || c == '\t' || c == '\n' || c == '\r'

/-- Word characters, as matched by `\w` (`[A-Za-z0-9_]`). -/
def isWordChar (c : Char) : Bool :=
  (c.isAlpha && c.toNat < 128) || c.isDigit || c == '_'

/-- One atom of a source pattern. -/
inductive Atom where
  | lit (s : String)
  | ws1
  | ws0
  | wsDash
  | bdry
  deriving Repr

/-- Consume the literal `p` from the front of `cs`, returning the rest. -/
def dropLit : List Char → List Char → Option (List Char)
  | [], cs => some cs
  | _ :: _, [] => none
  | p :: ps, c :: cs => if p == c then dropLit ps cs else none

/-- Word-character test lifted to an optional char; the ends of the input
count as non-word positions, exactly as for `\b`. -/
def isWordOpt : Option Char → Bool
  | none => false
  | some c => isWordChar c

/-- A `\b` word boundary holds between two positions iff exactly one side
is a word character. -/
def atBoundary (prev : Option Char) (next : Option Char) : Bool :=
  isWordOpt prev != isWordOpt next

/-- Match a list of atoms at the current position.  `prev` is the character
just before the current position (`none` at the start of the input); it is
consulted only by `Atom.bdry`.  Whitespace runs are consumed maximally,
which is equivalent to the backtracking semantics of `\s+`/`\s*` here
because in every source pattern the atom after a whitespace run starts
with a non-whitespace literal character.  After a whitespace run `prev` is
recorded as a space; only its word-character status matters and every
whitespace character is a non-word character. -/
def matchAt : List Atom → List Char → Option Char → Bool
  | [], _, _ => true
  | Atom.bdry :: as, cs, prev =>
    atBoundary prev cs.head? && matchAt as cs prev
  | Atom.lit s :: as, cs, prev =>
    match dropLit s.toList cs with
    | some rest =>
      matchAt as rest (match s.toList.getLast? with
        | some c => some c
        | none => prev)
    | none => false
  | Atom.ws1 :: as, cs, _ =>
    match cs with
    | [] => false
    | c :: rest => isWs c && matchAt as (rest.dropWhile isWs) (some ' ')
  | Atom.ws0 :: as, cs, prev =>
    match cs with
    | [] => matchAt as [] prev
    | c :: rest =>
      if isWs c then matchAt as (rest.dropWhile isWs) (some ' ')
      else matchAt as cs prev
  | Atom.wsDash :: as, cs, _ =>
    match cs with
    | [] => false
    | c :: rest => (isWs c || c == '-') && matchAt as rest (some c)

/-- Try to match the atoms at every start position of `cs`. -/
def searchFrom (p : List Atom) : List Char → Option Char → Bool
  | [], prev => matchAt p [] prev
  | c :: rest, prev => matchAt p (c :: rest) prev || searchFrom p rest (some c)

/-- `RegExp.prototype.test` for a case-insensitive pattern: lowercase the
input and look for a match anywhere. -/
def reTest (p : List Atom) (input : String) : Bool :=
  searchFrom p input.toLower.toList none

/-- Disjunction of two atom lists — used for source patterns containing a
two-way alternation. -/
def reTest2 (p q : List Atom) (input : String) : Bool :=
  reTest p input || reTest q input

/-- The apostrophe character (used by the pattern for `what'?s`). -/
def apos : Char := Char.ofNat 39

/-! ## Intent classification patterns (`INTENT_PATTERNS`)

Each entry carries the original regex.  Trailing optional groups are
dropped (existence of a match is unaffected), and `(a|b)` alternations are
expanded with `reTest2`.
-/

inductive Intent where
  | incident
  | overview
  | investigation
  | escalation
  | exploration
  deriving DecidableEq, Repr

/-- The fixed declaration order of the intent score table in the source. -/
def declaredIntents : List Intent :=
  [.incident, .overview, .investigation, .escalation, .exploration]

def INTENT_PATTERNS : Intent → List (String → Bool)
  | .incident =>
    [ reTest [.lit "fail"],                         -- /fail(ure|ing|ed)?/i
      reTest [.lit "down", .bdry],                  -- /down\b/i
      reTest [.lit "error"],                        -- /error/i
      reTest [.lit "broken"],                       -- /broken/i
      reTest [.lit "outage"],                       -- /outage/i
      reTest [.lit "crash"],                        -- /crash/i
      reTest [.lit "login", .ws1, .lit "fail"],     -- /login\s+fail/i
      reTest [.lit "not", .ws1, .lit "work"],       -- /not\s+work/i
      reTest [.lit "report"],                       -- /report(ing|ed)?/i
      reTest [.lit "issue"],                        -- /issue/i
      reTest [.lit "bug"],                          -- /bug/i
      reTest [.lit "500"],                          -- /500/i
      reTest [.lit "timeout"] ]                     -- /timeout/i
  | .overview =>
    [ reTest [.lit "overview"],                     -- /overview/i
      reTest [.lit "summary"],                      -- /summary/i
      reTest [.lit "today"],                        -- /today/i
      reTest [.lit "status"],                       -- /status/i
      -- /how\s+(are|is)\s+things/i
      reTest2 [.lit "how", .ws1, .lit "are", .ws1, .lit "things"]
              [.lit "how", .ws1, .lit "is", .ws1, .lit "things"],
      reTest [.lit "high", .wsDash, .lit "level"],  -- /high[\s-]level/i
      reTest [.lit "dashboard"],                    -- /dashboard/i
      -- /what'?s\s+happening/i
      reTest2 [.lit "whats", .ws1, .lit "happening"]
              [.lit ("what" ++ String.singleton apos ++ "s"), .ws1,
               .lit "happening"],
      reTest [.lit "general"],                      -- /general/i
      reTest [.lit "brief"] ]                       -- /brief(ing)?/i
  | .investigation =>
    [ reTest [.lit "investigat"],                   -- /investigat/i
      -- /something\s+(feels?|seems?)/i
      reTest2 [.lit "something", .ws1, .lit "feel"]
              [.lit "something", .ws1, .lit "seem"],
      reTest [.bdry, .lit "off", .bdry],            -- /\boff\b/i
      reTest [.lit "anomal"],                       -- /anomal/i
      reTest [.lit "suspicious"],                   -- /suspicious/i
      reTest [.lit "dig", .ws1, .lit "in"],         -- /dig\s+(in|into)/i
      reTest [.lit "look", .ws1, .lit "into"],      -- /look\s+into/i
      reTest [.lit "root", .ws1, .lit "cause"],     -- /root\s+cause/i
      reTest [.bdry, .lit "why", .bdry],            -- /\bwhy\b/i
      reTest [.lit "weird"],                        -- /weird/i
      reTest [.lit "strange"],                      -- /strange/i
      reTest [.lit "unusual"] ]                     -- /unusual/i
  | .escalation =>
    [ reTest [.lit "escalat"],                      -- /escalat/i
      reTest [.lit "urgent"],                       -- /urgent/i
      reTest [.lit "critical"],                     -- /critical/i
      -- /what\s+should\s+I\s+do/i
      reTest [.lit "what", .ws1, .lit "should", .ws1, .lit "i", .ws1,
              .lit "do"],
      reTest [.lit "action"],                       -- /action/i
      reTest [.bdry, .lit "help", .bdry],           -- /\bhelp\b/i
      reTest [.bdry, .lit "now", .bdry],            -- /\bnow\b/i
      reTest [.lit "immediate"],                    -- /immediate/i
      reTest [.lit "emergency"],                    -- /emergency/i
      reTest [.lit "worst"],                        -- /worst/i
      reTest [.lit "getting", .ws1, .lit "worse"],  -- /getting\s+worse/i
      reTest [.lit "spreading"] ]                   -- /spreading/i
  | .exploration =>
    [ reTest [.lit "show", .ws1, .lit "me"],        -- /show\s+me/i
      reTest [.lit "explore"],                      -- /explore/i
      -- /tell\s+me\s+about/i
      reTest [.lit "tell", .ws1, .lit "me", .ws1, .lit "about"],
      reTest [.lit "details"],                      -- /details/i
      reTest [.lit "more", .ws1, .lit "info"],      -- /more\s+info/i
      reTest [.lit "drill"],                        -- /drill/i
      reTest [.bdry, .lit "deep", .bdry],           -- /\bdeep\b/i
      reTest [.lit "break", .ws0, .lit "down"] ]    -- /break\s*down/i

/-! ## Urgency signals (`URGENCY_SIGNALS`) -/

inductive Urgency where
  | critical
  | high
  | medium
  | low
  deriving DecidableEq, Repr

/-- The fixed priority order in which `classifyUrgency` tests levels. -/
def urgencyOrder : List Urgency := [.critical, .high, .medium, .low]

def URGENCY_SIGNALS : Urgency → List (String → Bool)
  | .critical =>
    [ reTest [.lit "escalat"],                      -- /escalat/i
      reTest [.lit "emergency"],                    -- /emergency/i
      reTest [.lit "critical"],                     -- /critical/i
      reTest [.bdry, .lit "now", .bdry],            -- /\bnow\b/i
      reTest [.lit "immediate"],                    -- /immediate/i
      reTest [.lit "worst"],                        -- /worst/i
      reTest [.lit "spreading"] ]                   -- /spreading/i
  | .high =>
    [ reTest [.lit "fail"],                         -- /fail/i
      reTest [.lit "broken"],                       -- /broken/i
      reTest [.lit "down", .bdry],                  -- /down\b/i
      reTest [.lit "outage"],                       -- /outage/i
      reTest [.lit "crash"],                        -- /crash/i
      reTest [.lit "urgent"],                       -- /urgent/i
      reTest [.lit "reporting"] ]                   -- /reporting/i
  | .medium =>
    [ reTest [.lit "investigat"],                   -- /investigat/i
      reTest [.lit "something"],                    -- /something/i
      reTest [.bdry, .lit "off", .bdry],            -- /\boff\b/i
      reTest [.lit "anomal"],                       -- /anomal/i
      reTest [.lit "suspicious"],                   -- /suspicious/i
      reTest [.lit "weird"] ]                       -- /weird/i
  | .low =>
    [ reTest [.lit "overview"],                     -- /overview/i
      reTest [.lit "summary"],                      -- /summary/i
      reTest [.lit "today"],                        -- /today/i
      reTest [.lit "general"],                      -- /general/i
      reTest [.lit "status"],                       -- /status/i
      reTest [.lit "brief"] ]                       -- /brief/i

/-! ## Classification functions -/

/-- Score of one intent category: the number of its patterns matching the
input (`scores[intent] += 1` per matching pattern). -/
def intentScore (i : Intent) (input : String) : Nat :=
  (INTENT_PATTERNS i).countP (fun p => p input)

/-- One step of the stable descending insertion sort modelling
`Object.entries(scores).sort(([, a], [, b]) => b - a)`.  The element being
inserted comes earlier in the original order than everything in the
already-sorted tail, so on equal scores it is placed first — exactly the
stability guarantee of `Array.prototype.sort`. -/
def insertDesc (x : Intent × Nat) : List (Intent × Nat) → List (Intent × Nat)
  | [] => [x]
  | y :: ys => if y.2 ≤ x.2 then x :: y :: ys else y :: insertDesc x ys

/-- Stable sort of the score entries by descending score. -/
def sortByScoreDesc (l : List (Intent × Nat)) : List (Intent × Nat) :=
  l.foldr insertDesc []

/-- `classifyIntent` — builds the score table in declaration order, sorts
it by descending score and takes the head; defaults to `exploration` when
the top score is `0`. -/
def classifyIntent (input : String) : Intent :=
  let scores := declaredIntents.map (fun i => (i, intentScore i input))
  match sortByScoreDesc scores with
  | [] => .exploration
  | (i, s) :: _ => if 0 < s then i else .exploration

/-- The inner loops of `classifyUrgency`: return the first level whose
signal list has a matching pattern. -/
def firstMatchingLevel : List Urgency → String → Urgency
  | [], _ => .low
  | l :: ls, input =>
    if (URGENCY_SIGNALS l).any (fun p => p input) then l
    else firstMatchingLevel ls input

/-- `classifyUrgency` — first-match over the fixed level order, defaulting
to `low`. -/
def classifyUrgency (input : String) : Urgency :=
  firstMatchingLevel urgencyOrder input

/-- `calculateConfidence` — base per intent plus a capped bonus per
matching pattern of the winning intent, capped at `0.95`. -/
def calculateConfidence (intent : Intent) (input : String) : ℚ :=
  let matchCount : Nat := (INTENT_PATTERNS intent).countP (fun p => p input)
  let baseConfidence : ℚ :=
    if intent = .investigation then 0.45
    else if intent = .exploration then 0.6 else 0.7
  let bonus : ℚ := min ((matchCount : ℚ) * 0.08) 0.25
  min (baseConfidence + bonus) 0.95

/-- `extractKeywords` — lowercase, strip non-word non-space characters,
split on whitespace, keep words longer than three characters. -/
def extractKeywords (input : String) : List String :=
  ((String.mk (input.toLower.toList.filter
      (fun c => isWordChar c || isWs c))).split isWs).filter
    (fun w => 3 < w.length)

structure AnalysisResult where
  intent : Intent
  urgency : Urgency
  confidence : ℚ
  keywords : List String
  deriving DecidableEq, Repr

/-- `analyze` — the core analysis pipeline. -/
def analyze (input : String) : AnalysisResult :=
  { intent := classifyIntent input
    urgency := classifyUrgency input
    confidence := calculateConfidence (classifyIntent input) input
    keywords := extractKeywords input }

/-! ## Spec-side characterizations of the classifiers

These definitions follow the wording of the specification (maximum score
with declaration-order tie-break and a zero-score fallback; first-match
urgency), to be compared with the sort-based / loop-based source
implementations above.
-/

/-- The maximum intent score over the five categories. -/
def maxIntentScore (input : String) : Nat :=
  (declaredIntents.map (fun i => intentScore i input)).foldr Nat.max 0

/-- The intent the spec prescribes: the first category in declaration
order reaching the maximum score, or `exploration` when the maximum score
is `0`. -/
def specIntent (input : String) : Intent :=
  if maxIntentScore input = 0 then .exploration
  else
    (declaredIntents.find?
      (fun i => intentScore i input == maxIntentScore input)).getD
      .exploration

/-- The urgency the spec prescribes: the first level in the fixed priority
order with any matching pattern, defaulting to `low`. -/
def specUrgency (input : String) : Urgency :=
  (urgencyOrder.find?
    (fun l => (URGENCY_SIGNALS l).any (fun p => p input))).getD .low

/-- The per-intent base confidence named by the spec. -/
def specBase : Intent → ℚ
  | .investigation => 0.45
  | .exploration => 0.6
  | _ => 0.7

/-- Number of the winning intent's own patterns matching the input. -/
def winningMatchCount (input : String) : Nat :=
  (INTENT_PATTERNS (classifyIntent input)).countP (fun p => p input)

/-! ## The UISchema data model (`src/types/schema.ts`)

`layout`, component `type` and the reasoning labels are modelled as
`String`: these are the values that cross the runtime boundary (the
composition engine and `getResponseForIntent` dispatch on the string
value, with defensive defaults for values outside the static unions).
The `props` payload of a component entry is never inspected by the logic
in scope and is omitted (see the header comment).
-/

inductive Visibility where
  | visible
  | hidden
  | conditional
  deriving DecidableEq, Repr

structure UIComponentSpec where
  id : String
  type : String
  priority : Int
  visibility : Visibility
  deriving DecidableEq, Repr

/-- One `(type, reason)` entry of `reasoning.hiddenComponents`. -/
structure HiddenComponent where
  type : String
  reason : String
  deriving DecidableEq, Repr

structure ReasoningBlock where
  intent : String
  urgency : String
  uncertaintyAreas : List String
  hiddenComponents : List HiddenComponent
  deriving DecidableEq, Repr

structure UISchema where
  layout : String
  confidence : ℚ
  explanation : String
  reasoning : ReasoningBlock
  components : List UIComponentSpec
  deriving DecidableEq, Repr

/-- String names of the intents at the runtime boundary. -/
def intentName : Intent → String
  | .incident => "incident"
  | .overview => "overview"
  | .investigation => "investigation"
  | .escalation => "escalation"
  | .exploration => "exploration"

/-- String names of the urgency levels at the runtime boundary. -/
def urgencyName : Urgency → String
  | .critical => "critical"
  | .high => "high"
  | .medium => "medium"
  | .low => "low"

/-! ## Response templates (`src/ai/responses.ts`)

Each template transcribes the corresponding generator: layout,
confidence (with its per-intent clamp where the source has one),
explanation, reasoning block and the component entries with their
ids, types, priorities and visibilities.
-/

/-- `incidentResponse` — grid layout, confidence passed through. -/
def incidentResponse (confidence : ℚ) : UISchema :=
  { layout := "grid"
    confidence := confidence
    explanation :=
      "Incident detected. Displaying critical alerts, affected metrics, " ++
      "timeline of events, system logs, and an action checklist. Grid " ++
      "layout maximizes information density for rapid triage."
    reasoning :=
      { intent := "incident"
        urgency := "high"
        uncertaintyAreas :=
          [ "Root cause not yet confirmed",
            "Full blast radius unknown" ]
        hiddenComponents :=
          [ ⟨"GeoMap", "No geographic correlation detected yet"⟩,
            ⟨"InsightSummary",
             "Not enough data for hypotheses — incident is active"⟩ ] }
    components :=
      [ ⟨"banner-1", "StatusBanner", 1, .visible⟩,
        ⟨"alert-1", "AlertPanel", 2, .visible⟩,
        ⟨"metric-1", "MetricCard", 3, .visible⟩,
        ⟨"metric-2", "MetricCard", 3, .visible⟩,
        ⟨"metric-3", "MetricCard", 4, .visible⟩,
        ⟨"metric-4", "MetricCard", 4, .visible⟩,
        ⟨"timeline-1", "TimelineView", 5, .visible⟩,
        ⟨"logs-1", "LogViewer", 6, .visible⟩,
        ⟨"actions-1", "ActionChecklist", 7, .visible⟩,
        ⟨"recs-1", "RecommendationStrip", 8, .visible⟩ ] }

/-- `overviewResponse` — grid layout, confidence passed through. -/
def overviewResponse (confidence : ℚ) : UISchema :=
  { layout := "grid"
    confidence := confidence
    explanation :=
      "Overview requested. Showing system health banner, key performance " ++
      "metrics, traffic trend, error distribution, and a summary of " ++
      "observations. Grid layout for at-a-glance comprehension."
    reasoning :=
      { intent := "overview"
        urgency := "low"
        uncertaintyAreas := []
        hiddenComponents :=
          [ ⟨"AlertPanel", "No active alerts — system is healthy"⟩,
            ⟨"LogViewer", "Not relevant for high-level overview"⟩,
            ⟨"ActionChecklist", "No active incidents requiring action"⟩,
            ⟨"GeoMap", "Geographic view not requested"⟩ ] }
    components :=
      [ ⟨"banner-1", "StatusBanner", 1, .visible⟩,
        ⟨"metric-1", "MetricCard", 2, .visible⟩,
        ⟨"metric-2", "MetricCard", 2, .visible⟩,
        ⟨"metric-3", "MetricCard", 2, .visible⟩,
        ⟨"metric-4", "MetricCard", 2, .visible⟩,
        ⟨"chart-1", "ChartView", 3, .visible⟩,
        ⟨"chart-2", "ChartView", 4, .visible⟩,
        ⟨"insights-1", "InsightSummary", 5, .visible⟩,
        ⟨"recs-1", "RecommendationStrip", 6, .visible⟩ ] }

/-- `investigationResponse` — split layout; investigation is inherently
uncertain, so the incoming confidence is clamped to `0.54`. -/
def investigationResponse (confidence : ℚ) : UISchema :=
  { layout := "split"
    confidence := min confidence 0.54
    explanation :=
      "Investigation mode activated. Low confidence — presenting " ++
      "hypotheses rather than conclusions. Split layout: left side shows " ++
      "anomaly analysis, right side shows evidence (logs, timeline, map). " ++
      "UI is intentionally exploratory to avoid premature conclusions."
    reasoning :=
      { intent := "investigation"
        urgency := "medium"
        uncertaintyAreas :=
          [ "Anomaly pattern not yet conclusive",
            "Correlation ≠ causation — multiple hypotheses active",
            "Geographic correlation needs more data points",
            "Temporal pattern may be coincidental" ]
        hiddenComponents :=
          [ ⟨"ActionChecklist",
             "No confirmed incident yet — premature for action items"⟩,
            ⟨"RecommendationStrip",
             "Confidence too low for directive recommendations"⟩,
            ⟨"AlertPanel",
             "No triggered alerts — anomalies are sub-threshold"⟩ ] }
    components :=
      [ ⟨"banner-1", "StatusBanner", 1, .visible⟩,
        ⟨"insights-1", "InsightSummary", 2, .visible⟩,
        ⟨"chart-1", "ChartView", 3, .visible⟩,
        ⟨"timeline-1", "TimelineView", 4, .visible⟩,
        ⟨"logs-1", "LogViewer", 5, .visible⟩,
        ⟨"geo-1", "GeoMap", 6, .visible⟩ ] }

/-- `escalationResponse` — stack layout, confidence passed through. -/
def escalationResponse (confidence : ℚ) : UISchema :=
  { layout := "stack"
    confidence := confidence
    explanation :=
      "ESCALATION detected. Switching to directive stack layout that " ++
      "prioritizes actionable information. AlertPanel and ActionChecklist " ++
      "are top priority. Every component is ordered by urgency. Stack " ++
      "layout ensures nothing is missed during rapid response."
    reasoning :=
      { intent := "escalation"
        urgency := "critical"
        uncertaintyAreas :=
          [ "Full impact scope still being assessed",
            "Customer-facing impact duration unknown" ]
        hiddenComponents :=
          [ ⟨"GeoMap", "Geographic data not actionable during escalation"⟩,
            ⟨"LogViewer",
             "Deprioritized — action items are more critical right now"⟩,
            ⟨"ChartView",
             "Trend data less important than immediate actions"⟩ ] }
    components :=
      [ ⟨"banner-1", "StatusBanner", 1, .visible⟩,
        ⟨"alert-1", "AlertPanel", 2, .visible⟩,
        ⟨"actions-1", "ActionChecklist", 3, .visible⟩,
        ⟨"metric-1", "MetricCard", 4, .visible⟩,
        ⟨"metric-2", "MetricCard", 4, .visible⟩,
        ⟨"metric-3", "MetricCard", 4, .visible⟩,
        ⟨"metric-4", "MetricCard", 4, .visible⟩,
        ⟨"recs-1", "RecommendationStrip", 5, .visible⟩,
        ⟨"timeline-1", "TimelineView", 6, .visible⟩ ] }

/-- `explorationResponse` — grid layout, confidence clamped to `0.65`. -/
def explorationResponse (confidence : ℚ) : UISchema :=
  { layout := "grid"
    confidence := min confidence 0.65
    explanation :=
      "Exploration mode. Broad overview with charts, metrics, and " ++
      "insights to help guide further inquiry. Grid layout provides " ++
      "multiple entry points for deeper investigation."
    reasoning :=
      { intent := "exploration"
        urgency := "low"
        uncertaintyAreas :=
          [ "User intent is general — showing broad surface area",
            "May need follow-up questions to narrow focus" ]
        hiddenComponents :=
          [ ⟨"ActionChecklist", "No specific actions identified yet"⟩,
            ⟨"AlertPanel", "No triggered alerts to display"⟩ ] }
    components :=
      [ ⟨"banner-1", "StatusBanner", 1, .visible⟩,
        ⟨"metric-1", "MetricCard", 2, .visible⟩,
        ⟨"metric-2", "MetricCard", 2, .visible⟩,
        ⟨"metric-3", "MetricCard", 2, .visible⟩,
        ⟨"metric-4", "MetricCard", 2, .visible⟩,
        ⟨"chart-1", "ChartView", 3, .visible⟩,
        ⟨"insights-1", "InsightSummary", 4, .visible⟩,
        ⟨"geo-1", "GeoMap", 5, .visible⟩ ] }

/-- `getResponseForIntent` — the `switch` on the intent string; the
urgency argument is accepted but unused (`_urgency` in the source), and
both `case exploration` and `default` fall through to the exploration
template. -/
def getResponseForIntent (intent : String) (_urgency : String)
    (confidence : ℚ) : UISchema :=
  if intent = "incident" then incidentResponse confidence
  else if intent = "overview" then overviewResponse confidence
  else if intent = "investigation" then investigationResponse confidence
  else if intent = "escalation" then escalationResponse confidence
  else explorationResponse confidence

/-- The five known intent names at the synthesizer boundary. -/
def knownIntents : List String :=
  ["incident", "overview", "investigation", "escalation", "exploration"]

/-- `analyzeSituation` — the public entry point: analyze, then synthesize.
The source wraps this in a promise with a simulated 300–800 ms delay; the
delay influences nothing about the produced document and is dropped. -/
def analyzeSituation (input : String) : UISchema :=
  getResponseForIntent (intentName (analyze input).intent)
    (urgencyName (analyze input).urgency) (analyze input).confidence

/-! ## Composition engine (`SentinelComposition.tsx`, layout strategies,
component registry) -/

/-- The keys of `componentRegistry` — the ten registered component
types. -/
def registeredTypes : List String :=
  [ "MetricCard", "AlertPanel", "TimelineView", "LogViewer", "ChartView",
    "ActionChecklist", "InsightSummary", "RecommendationStrip", "GeoMap",
    "StatusBanner" ]

/-- The property names of `Object.prototype` in a standard JavaScript
environment (including the Annex B accessors).  `componentRegistry` and
`layoutMap` are plain object literals, so a bracket lookup with one of
these names traverses the prototype chain and yields the inherited
member — a function or object, never `null`/`undefined` and never
falsy. -/
def objectProtoKeys : List String :=
  [ "constructor", "hasOwnProperty", "isPrototypeOf",
    "propertyIsEnumerable", "toLocaleString", "toString", "valueOf",
    "__proto__", "__defineGetter__", "__defineSetter__",
    "__lookupGetter__", "__lookupSetter__" ]

/-- `resolveComponent(type) = componentRegistry[type] ?? null` returns a
non-null value — so the layout's `if (!Component) return null` guard does
not skip the entry — exactly when `type` is one of the ten own keys of
the registry or, via the prototype chain, a property name inherited from
`Object.prototype` (the inherited members are all truthy). -/
def resolveSucceeds (t : String) : Bool :=
  registeredTypes.contains t || objectProtoKeys.contains t

/-- Width class of a rendered layout cell. -/
inductive Width where
  | full
  | half
  | quarter
  deriving DecidableEq, Repr

/-- One rendered cell: the component entry it came from, its width class
and its `animationDelay` in milliseconds (`priority * 60`). -/
structure Cell where
  entry : UIComponentSpec
  width : Width
  delay : Int
  deriving DecidableEq, Repr

/-- Grid cell width: banner and recommendation-strip types span the full
width, metric cards are quarter-width, everything else is half-width. -/
def gridWidth (t : String) : Width :=
  if t = "StatusBanner" ∨ t = "RecommendationStrip" then .full
  else if t = "MetricCard" then .quarter
  else .half

/-- `GridLayout` — one cell per entry, skipping unregistered types. -/
def gridCells (l : List UIComponentSpec) : List Cell :=
  l.filterMap (fun c =>
    if resolveSucceeds c.type then
      some ⟨c, gridWidth c.type, c.priority * 60⟩
    else none)

/-- `StackLayout` — full-width cells in order, skipping unregistered
types. -/
def stackCells (l : List UIComponentSpec) : List Cell :=
  l.filterMap (fun c =>
    if resolveSucceeds c.type then some ⟨c, .full, c.priority * 60⟩ else none)

/-- The two columns of `SplitLayout`. -/
structure SplitPlan where
  left : List Cell
  right : List Cell
  deriving DecidableEq, Repr

/-- Cells of one split column; the degenerate width conditional in the
source renders every split cell full-width. -/
def splitColumnCells (l : List UIComponentSpec) : List Cell :=
  l.filterMap (fun c =>
    if resolveSucceeds c.type then some ⟨c, .full, c.priority * 60⟩ else none)

/-- `SplitLayout` — partition at `ceil(n/2)`: first half left, second
half right. -/
def splitPlan (l : List UIComponentSpec) : SplitPlan :=
  { left := splitColumnCells (l.take ((l.length + 1) / 2))
    right := splitColumnCells (l.drop ((l.length + 1) / 2)) }

/-- The two layers of `OverlayLayout`. -/
structure OverlayPlan where
  base : List Cell
  overlay : List Cell
  deriving DecidableEq, Repr

/-- The partition `OverlayLayout` computes on its component list:
`overlays = components.filter(priority <= 2)` and
`base = components.filter(priority > 2)`. -/
def overlayPartition (l : List UIComponentSpec) :
    List UIComponentSpec × List UIComponentSpec :=
  (l.filter (fun c => c.priority ≤ 2), l.filter (fun c => 2 < c.priority))

/-- `OverlayLayout` — base layer half-width, overlay layer full-width,
each skipping unregistered types. -/
def overlayPlan (l : List UIComponentSpec) : OverlayPlan :=
  { base := (overlayPartition l).2.filterMap (fun c =>
      if resolveSucceeds c.type then some ⟨c, .half, c.priority * 60⟩
      else none)
    overlay := (overlayPartition l).1.filterMap (fun c =>
      if resolveSucceeds c.type then some ⟨c, .full, c.priority * 60⟩
      else none) }

/-- What a composition produces: one of the four strategies' placements,
or — when the layout string hits an inherited `Object.prototype` member
of `layoutMap` — no strategy at all: the inherited member becomes the
selected "layout component", receives the sorted visible list, renders
none of it as layout cells, and can make React throw. -/
inductive Placement where
  | grid (cells : List Cell)
  | stack (cells : List Cell)
  | split (plan : SplitPlan)
  | overlay (plan : OverlayPlan)
  | notAStrategy (name : String) (components : List UIComponentSpec)
  deriving DecidableEq, Repr

/-- The recognized layout names (the own keys of `layoutMap`). -/
def knownLayouts : List String := ["grid", "stack", "split", "overlay"]

inductive LayoutKind where
  | grid
  | stack
  | split
  | overlay
  deriving DecidableEq, Repr

/-- What `layoutMap[s]` can evaluate to: one of the four layout
strategies (own keys), or an inherited `Object.prototype` member. -/
inductive LayoutComponent where
  | strategy (k : LayoutKind)
  | inherited (name : String)
  deriving DecidableEq, Repr

/-- The `layoutMap[s]` lookup.  Own keys shadow the prototype; a name
inherited from `Object.prototype` resolves to the inherited member (so
the `?? GridLayout` fallback does not fire for it); `none` models the
`undefined` of every other key. -/
def lookupLayout (s : String) : Option LayoutComponent :=
  if s = "grid" then some (.strategy .grid)
  else if s = "stack" then some (.strategy .stack)
  else if s = "split" then some (.strategy .split)
  else if s = "overlay" then some (.strategy .overlay)
  else if s ∈ objectProtoKeys then some (.inherited s)
  else none

/-- The comparator of
`[...visibleComponents].sort((a, b) => a.priority - b.priority)`. -/
def prioLE (a b : UIComponentSpec) : Prop :=
  a.priority ≤ b.priority

instance : DecidableRel prioLE := fun a b => Int.decLe a.priority b.priority

instance : IsTotal UIComponentSpec prioLE :=
  ⟨fun a b => Int.le_total a.priority b.priority⟩

instance : IsTrans UIComponentSpec prioLE :=
  ⟨fun _ _ _ => Int.le_trans⟩

/-- Stable ascending sort by priority: `Array.prototype.sort` is stable
(ES2019), so any stable sort is a faithful model; insertion sort is
one. -/
def sortByPriority (l : List UIComponentSpec) : List UIComponentSpec :=
  l.insertionSort prioLE

/-- The visible components of a document, in priority order — steps 1
and 2 of `SentinelComposition`. -/
def visibleSorted (doc : UISchema) : List UIComponentSpec :=
  sortByPriority (doc.components.filter (fun c => c.visibility = .visible))

/-- The placement one of the four layout strategies produces on a
component list. -/
def strategyPlacement (k : LayoutKind) (l : List UIComponentSpec) :
    Placement :=
  match k with
  | .grid => .grid (gridCells l)
  | .stack => .stack (stackCells l)
  | .split => .split (splitPlan l)
  | .overlay => .overlay (overlayPlan l)

/-- `SentinelComposition` — filter to visible, stable-sort by priority,
select the layout component by `layoutMap[schema.layout] ?? GridLayout`.
The fallback engages only when the lookup is `undefined`; an inherited
`Object.prototype` member is non-nullish and is selected instead of a
strategy.  The engine performs no validation of the document: every
document, well-formed or not, is composed. -/
def composePlacement (doc : UISchema) : Placement :=
  match (lookupLayout doc.layout).getD (.strategy .grid) with
  | .strategy k => strategyPlacement k (visibleSorted doc)
  | .inherited name => .notAStrategy name (visibleSorted doc)

/-- The entries of a placement, enumerated in ascending-priority reading
order: for the split layout left column then right column, and for the
overlay layout the overlay layer (priorities ≤ 2) before the base layer
(priorities > 2).  An inherited non-strategy "layout" renders no layout
cells, so it places no entries. -/
def placedEntries : Placement → List UIComponentSpec
  | .grid cells => cells.map (·.entry)
  | .stack cells => cells.map (·.entry)
  | .split plan => (plan.left ++ plan.right).map (·.entry)
  | .overlay plan => (plan.overlay ++ plan.base).map (·.entry)
  | .notAStrategy _ _ => []

/-- A malformed document in the sense of the spec's error taxonomy, for
the structurally representable clauses: confidence outside `[0, 1]` or
duplicate component ids.  (A missing required field is not representable
in a well-typed document value.) -/
def isMalformedDoc (doc : UISchema) : Bool :=
  decide (doc.confidence < 0) || decide (1 < doc.confidence) ||
    !(doc.components.map (·.id)).Nodup

/-- A concrete malformed document: out-of-range confidence and duplicate
ids. -/
def badDoc : UISchema :=
  { layout := "grid"
    confidence := 1.5
    explanation := "malformed"
    reasoning :=
      { intent := "incident"
        urgency := "high"
        uncertaintyAreas := []
        hiddenComponents := [] }
    components :=
      [ ⟨"dup", "StatusBanner", 1, .visible⟩,
        ⟨"dup", "MetricCard", 2, .visible⟩ ] }

/-- A document with a visible entry whose type is not one of the ten
registry component types but collides with an `Object.prototype`
property name, so `resolveComponent` returns the inherited member and
the entry is rendered instead of skipped. -/
def protoTypeDoc : UISchema :=
  { layout := "grid"
    confidence := 0.9
    explanation := "prototype-typed component"
    reasoning :=
      { intent := "exploration"
        urgency := "low"
        uncertaintyAreas := []
        hiddenComponents := [] }
    components := [ ⟨"x1", "toString", 1, .visible⟩ ] }

/-- A document whose layout string collides with an `Object.prototype`
property name, so `layoutMap[layout]` resolves to the inherited member
and the `?? GridLayout` fallback never fires. -/
def protoLayoutDoc : UISchema :=
  { layout := "toString"
    confidence := 0.9
    explanation := "prototype-named layout"
    reasoning :=
      { intent := "exploration"
        urgency := "low"
        uncertaintyAreas := []
        hiddenComponents := [] }
    components := [ ⟨"banner-1", "StatusBanner", 1, .visible⟩ ] }

/-! ## Lemmas about the stable descending insertion sort -/

/-- Maximum of the second components of a score list. -/
def maxSnd (l : List (Intent × Nat)) : Nat :=
  l.foldr (fun x m => Nat.max x.2 m) 0

theorem insertDesc_ne_nil (x : Intent × Nat) (l : List (Intent × Nat)) :
    insertDesc x l ≠ [] := by
  cases l with
  | nil => simp [insertDesc]
  | cons y ys => simp only [insertDesc]; split <;> simp

theorem sortByScoreDesc_ne_nil (x : Intent × Nat) (l : List (Intent × Nat)) :
    sortByScoreDesc (x :: l) ≠ [] := by
  simp only [sortByScoreDesc, List.foldr_cons]
  exact insertDesc_ne_nil _ _

theorem headD_insertDesc (x d : Intent × Nat) (l : List (Intent × Nat)) :
    (insertDesc x l).headD d
      = match l with
        | [] => x
        | y :: _ => if y.2 ≤ x.2 then x else y := by
  cases l with
  | nil => simp [insertDesc]
  | cons y ys => simp only [insertDesc]; split <;> simp_all

/-- The head of the descending sort carries the maximal score. -/
theorem headD_sortByScoreDesc_snd (d : Intent × Nat) :
    ∀ l : List (Intent × Nat), l ≠ [] →
      ((sortByScoreDesc l).headD d).2 = maxSnd l := by
  intro l
  induction l with
  | nil => intro h; exact absurd rfl h
  | cons x t ih =>
    intro _
    have hx : sortByScoreDesc (x :: t) = insertDesc x (sortByScoreDesc t) :=
      rfl
    rw [hx]
    cases t with
    | nil => simp [sortByScoreDesc, insertDesc, maxSnd]
    | cons z zs =>
      obtain ⟨y, ys, hyt⟩ :=
        List.exists_cons_of_ne_nil (sortByScoreDesc_ne_nil z zs)
      have hy : y.2 = maxSnd (z :: zs) := by
        have h2 := ih (by simp)
        rw [hyt] at h2
        simpa using h2
      rw [hyt, headD_insertDesc]
      show (if y.2 ≤ x.2 then x else y).2 = maxSnd (x :: z :: zs)
      have hmax : maxSnd (x :: z :: zs) = Nat.max x.2 (maxSnd (z :: zs)) :=
        rfl
      rw [hmax, ← hy]
      split
      · next h => exact (Nat.max_eq_left h).symm
      · next h => exact (Nat.max_eq_right (Nat.le_of_not_le h)).symm

/-- The head of the descending sort is the first entry reaching the
maximal score — the stability consequence of the stable sort. -/
theorem headD_sortByScoreDesc_find (d : Intent × Nat) :
    ∀ l : List (Intent × Nat), l ≠ [] →
      (sortByScoreDesc l).headD d
        = (l.find? (fun p => p.2 == maxSnd l)).getD d := by
  intro l
  induction l with
  | nil => intro h; exact absurd rfl h
  | cons x t ih =>
    intro _
    have hx : sortByScoreDesc (x :: t) = insertDesc x (sortByScoreDesc t) :=
      rfl
    cases t with
    | nil =>
      rw [hx]
      have hb : (x.2 == maxSnd [x]) = true := by
        simp [maxSnd]
      simp [sortByScoreDesc, insertDesc, List.find?, hb]
    | cons z zs =>
      obtain ⟨y, ys, hyt⟩ :=
        List.exists_cons_of_ne_nil (sortByScoreDesc_ne_nil z zs)
      have hy2 : y.2 = maxSnd (z :: zs) := by
        have h2 := headD_sortByScoreDesc_snd d (z :: zs) (by simp)
        rw [hyt] at h2
        simpa using h2
      have hyv :
          y = (List.find? (fun p => p.2 == maxSnd (z :: zs))
                (z :: zs)).getD d := by
        have h2 := ih (by simp)
        rw [hyt] at h2
        simpa using h2
      rw [hx, hyt, headD_insertDesc]
      show (if y.2 ≤ x.2 then x else y)
          = (List.find? (fun p => p.2 == maxSnd (x :: z :: zs))
              (x :: z :: zs)).getD d
      have hmax : maxSnd (x :: z :: zs) = Nat.max x.2 (maxSnd (z :: zs)) :=
        rfl
      by_cases hc : maxSnd (z :: zs) ≤ x.2
      · have hM : maxSnd (x :: z :: zs) = x.2 := by
          rw [hmax]; exact Nat.max_eq_left hc
        rw [if_pos (hy2 ▸ hc)]
        have hfind :
            List.find? (fun p : Intent × Nat =>
                p.2 == maxSnd (x :: z :: zs)) (x :: z :: zs) = some x :=
          List.find?_cons_of_pos _ (by simp [hM])
        rw [hfind]
        rfl
      · have hM : maxSnd (x :: z :: zs) = maxSnd (z :: zs) := by
          rw [hmax]; exact Nat.max_eq_right (Nat.le_of_not_le hc)
        rw [if_neg (fun hle => hc (hy2 ▸ hle))]
        have hfind :
            List.find? (fun p : Intent × Nat =>
                p.2 == maxSnd (x :: z :: zs)) (x :: z :: zs)
              = List.find? (fun p : Intent × Nat =>
                  p.2 == maxSnd (x :: z :: zs)) (z :: zs) :=
          List.find?_cons_of_neg _ (by simp [hM]; omega)
        rw [hfind]
        simp only [hM]
        exact hyv

/-- `find?` over a score table built by `map` reduces to `find?` over the
underlying intents. -/
theorem find?_map_pair (f : Intent → Nat) (M : Nat) :
    ∀ l : List Intent,
      (l.map (fun i => (i, f i))).find? (fun p => p.2 == M)
        = (l.find? (fun i => f i == M)).map (fun i => (i, f i)) := by
  intro l
  induction l with
  | nil => rfl
  | cons x t ih =>
    by_cases h : (f x == M) = true
    · have h1 :
          List.find? (fun p : Intent × Nat => p.2 == M)
              ((x :: t).map (fun i => (i, f i))) = some (x, f x) :=
        List.find?_cons_of_pos _ (by simpa using h)
      have h2 : List.find? (fun i => f i == M) (x :: t) = some x :=
        List.find?_cons_of_pos _ h
      rw [h1, h2]
      rfl
    · have h1 :
          List.find? (fun p : Intent × Nat => p.2 == M)
              ((x :: t).map (fun i => (i, f i)))
            = List.find? (fun p : Intent × Nat => p.2 == M)
                (t.map (fun i => (i, f i))) :=
        List.find?_cons_of_neg _ (by simpa using h)
      have h2 :
          List.find? (fun i => f i == M) (x :: t)
            = List.find? (fun i => f i == M) t :=
        List.find?_cons_of_neg _ (by simpa using h)
      rw [h1, h2, ih]

/-- `classifyIntent` rephrased through `List.headD`: with the default pair
`(exploration, 0)` the zero-score guard makes the empty-list branch and
the default coincide. -/
theorem classifyIntent_eq_headD (input : String) :
    classifyIntent input
      = (if 0 < ((sortByScoreDesc (declaredIntents.map
              (fun i => (i, intentScore i input)))).headD
              (Intent.exploration, 0)).2
         then ((sortByScoreDesc (declaredIntents.map
              (fun i => (i, intentScore i input)))).headD
              (Intent.exploration, 0)).1
         else .exploration) := by
  unfold classifyIntent
  cases h : sortByScoreDesc (declaredIntents.map
      (fun i => (i, intentScore i input))) with
  | nil => simp [h]
  | cons hd tl =>
    obtain ⟨i, s⟩ := hd
    simp [h]

/-- C1: for every input string, intent classification scores each of the
five categories by the number of its patterns matching the input; the
strictly highest score wins; ties go to the first category in the fixed
declaration order {incident, overview, investigation, escalation,
exploration}; and a maximum score of 0 yields `exploration`. -/
theorem intent_classification_matches_spec (input : String) :
    classifyIntent input = specIntent input := by
  rw [classifyIntent_eq_headD]
  have hne : declaredIntents.map (fun i => (i, intentScore i input)) ≠ [] := by
    simp [declaredIntents]
  have f1 := headD_sortByScoreDesc_snd (Intent.exploration, 0)
    (declaredIntents.map (fun i => (i, intentScore i input))) hne
  have f2 := headD_sortByScoreDesc_find (Intent.exploration, 0)
    (declaredIntents.map (fun i => (i, intentScore i input))) hne
  have f3 : maxSnd (declaredIntents.map (fun i => (i, intentScore i input)))
      = maxIntentScore input := rfl
  by_cases hz : maxIntentScore input = 0
  · unfold specIntent
    rw [if_pos hz]
    rw [f3] at f1
    rw [f1, hz]
    simp
  · unfold specIntent
    rw [if_neg hz]
    rw [f3] at f1
    have hpos : 0 < ((sortByScoreDesc (declaredIntents.map
        (fun i => (i, intentScore i input)))).headD
        (Intent.exploration, 0)).2 := by
      rw [f1]; omega
    rw [if_pos hpos, f2, f3,
      find?_map_pair (fun i => intentScore i input) (maxIntentScore input)
        declaredIntents]
    cases declaredIntents.find?
        (fun i => intentScore i input == maxIntentScore input) with
    | none => rfl
    | some i => rfl

/-- The urgency loop agrees with `List.find?` over the level order. -/
theorem firstMatchingLevel_eq_find (input : String) :
    ∀ ls : List Urgency,
      firstMatchingLevel ls input
        = (ls.find?
            (fun l => (URGENCY_SIGNALS l).any (fun p => p input))).getD
            .low := by
  intro ls
  induction ls with
  | nil => rfl
  | cons x t ih =>
    by_cases h : ((URGENCY_SIGNALS x).any (fun p => p input)) = true
    · have hf : List.find?
          (fun l => (URGENCY_SIGNALS l).any (fun p => p input)) (x :: t)
            = some x :=
        List.find?_cons_of_pos _ h
      simp [firstMatchingLevel, h, hf]
    · have hf : List.find?
          (fun l => (URGENCY_SIGNALS l).any (fun p => p input)) (x :: t)
            = List.find?
                (fun l => (URGENCY_SIGNALS l).any (fun p => p input)) t :=
        List.find?_cons_of_neg _ (by simpa using h)
      simp only [firstMatchingLevel, h, if_false, hf, ih, Bool.false_eq_true,
        ite_false]

/-- C2: for every input string, urgency classification is first-match: the
levels are tested in the fixed order critical, high, medium, low and the
first level with any matching pattern is returned; with no match anywhere
the result is `low`. -/
theorem urgency_classification_first_match (input : String) :
    classifyUrgency input = specUrgency input := by
  unfold classifyUrgency specUrgency
  exact firstMatchingLevel_eq_find input urgencyOrder

/-- Bounds for `calculateConfidence`, shared by the claims about the
analyzer and the full pipeline. -/
theorem calculateConfidence_bounds (i : Intent) (s : String) :
    0 ≤ calculateConfidence i s ∧ calculateConfidence i s ≤ 0.95 := by
  simp only [calculateConfidence]
  constructor
  · apply le_min
    · have hb : (0:ℚ) ≤ (if i = .investigation then (0.45:ℚ)
          else if i = .exploration then 0.6 else 0.7) := by
        split
        · norm_num
        · split <;> norm_num
      have hbonus : (0:ℚ)
          ≤ min (((INTENT_PATTERNS i).countP (fun p => p s) : ℚ) * 0.08)
              0.25 :=
        le_min (by positivity) (by norm_num)
      linarith
    · norm_num
  · exact min_le_right _ _

/-- The base confidence written with `if` in the source agrees with the
spec-side table. -/
theorem base_eq_specBase (i : Intent) :
    (if i = .investigation then (0.45:ℚ)
      else if i = .exploration then 0.6 else 0.7) = specBase i := by
  cases i <;> simp [specBase]

/-- C3: the analyzer's confidence is exactly
`min(base + min(matchCount * 0.08, 0.25), 0.95)` with base 0.45 for
investigation, 0.60 for exploration and 0.70 otherwise, where
`matchCount` counts the winning intent's own matching patterns; and it
always lies in `[0, 0.95]`. -/
theorem confidence_formula_and_bounds (input : String) :
    (analyze input).confidence
        = min (specBase (classifyIntent input)
            + min ((winningMatchCount input : ℚ) * 0.08) 0.25) 0.95
      ∧ 0 ≤ (analyze input).confidence
      ∧ (analyze input).confidence ≤ 0.95 := by
  have hconf : (analyze input).confidence
      = calculateConfidence (classifyIntent input) input := rfl
  refine ⟨?_, ?_, ?_⟩
  · rw [hconf]
    simp only [calculateConfidence, winningMatchCount]
    rw [base_eq_specBase]
  · rw [hconf]
    exact (calculateConfidence_bounds _ _).1
  · rw [hconf]
    exact (calculateConfidence_bounds _ _).2

/-- C4: the synthesizer embeds `min(c, 0.54)` for investigation,
`min(c, 0.65)` for exploration, and the incoming confidence unchanged for
incident, overview and escalation. -/
theorem synthesizer_confidence_clamp (u : String) (c : ℚ) :
    (getResponseForIntent "investigation" u c).confidence = min c 0.54
    ∧ (getResponseForIntent "exploration" u c).confidence = min c 0.65
    ∧ (getResponseForIntent "incident" u c).confidence = c
    ∧ (getResponseForIntent "overview" u c).confidence = c
    ∧ (getResponseForIntent "escalation" u c).confidence = c := by
  refine ⟨?_, ?_, ?_, ?_, ?_⟩ <;> rfl

/-- C5: synthesis is keyed on intent only — the produced document does
not depend on the urgency argument; the layouts follow the fixed table
incident→grid, overview→grid, investigation→split, escalation→stack,
exploration→grid; `reasoning.urgency` is the template's own fixed label;
and an intent outside the five known names yields the exploration
template. -/
theorem synthesis_intent_keyed :
    (∀ (i u₁ u₂ : String) (c : ℚ),
        getResponseForIntent i u₁ c = getResponseForIntent i u₂ c)
    ∧ (∀ (u : String) (c : ℚ),
        (getResponseForIntent "incident" u c).layout = "grid"
        ∧ (getResponseForIntent "overview" u c).layout = "grid"
        ∧ (getResponseForIntent "investigation" u c).layout = "split"
        ∧ (getResponseForIntent "escalation" u c).layout = "stack"
        ∧ (getResponseForIntent "exploration" u c).layout = "grid")
    ∧ (∀ (u : String) (c : ℚ),
        (getResponseForIntent "incident" u c).reasoning.urgency = "high"
        ∧ (getResponseForIntent "overview" u c).reasoning.urgency = "low"
        ∧ (getResponseForIntent "investigation" u c).reasoning.urgency
            = "medium"
        ∧ (getResponseForIntent "escalation" u c).reasoning.urgency
            = "critical"
        ∧ (getResponseForIntent "exploration" u c).reasoning.urgency
            = "low")
    ∧ (∀ i : String, i ∉ knownIntents → ∀ (u : String) (c : ℚ),
        getResponseForIntent i u c = explorationResponse c) := by
  refine ⟨fun i u₁ u₂ c => rfl, fun u c => ⟨rfl, rfl, rfl, rfl, rfl⟩,
    fun u c => ⟨rfl, rfl, rfl, rfl, rfl⟩, ?_⟩
  intro i hi u c
  simp only [knownIntents, List.mem_cons, List.not_mem_nil, or_false,
    not_or] at hi
  obtain ⟨h1, h2, h3, h4, _⟩ := hi
  simp [getResponseForIntent, h1, h2, h3, h4]

/-- Witness for the unknown-intent clause of `synthesis_intent_keyed`,
instantiated at the intent name "weather". -/
theorem synthesis_intent_keyed_witness :
    ("weather" : String) ∉ knownIntents
    ∧ getResponseForIntent "weather" "low" 0.5 = explorationResponse 0.5 :=
  ⟨by decide, synthesis_intent_keyed.2.2.2 "weather" (by decide) "low" 0.5⟩

/-- The base confidence of every intent bounds its final confidence from
below. -/
theorem specBase_le_calculateConfidence (i : Intent) (s : String) :
    specBase i ≤ calculateConfidence i s := by
  simp only [calculateConfidence]
  rw [base_eq_specBase]
  apply le_min
  · have hbonus : (0:ℚ)
        ≤ min (((INTENT_PATTERNS i).countP (fun p => p s) : ℚ) * 0.08)
            0.25 :=
      le_min (by positivity) (by norm_num)
    linarith
  · cases i <;> norm_num [specBase]

/-- The confidence the pipeline embeds, case-split on the winning
intent: the synthesizer applies its per-intent clamp to the analyzer's
confidence. -/
theorem analyzeSituation_confidence (input : String) :
    (analyzeSituation input).confidence
      = (match classifyIntent input with
         | .investigation =>
           min (calculateConfidence .investigation input) 0.54
         | .exploration =>
           min (calculateConfidence .exploration input) 0.65
         | i => calculateConfidence i input) := by
  cases h : classifyIntent input <;>
    simp [analyzeSituation, analyze, h, intentName, getResponseForIntent,
      incidentResponse, overviewResponse, investigationResponse,
      escalationResponse, explorationResponse]

/-- C10: for every input, the confidence embedded by the full
analyze-then-synthesize pipeline lies in `[0.45, 0.95]` — the smallest
base is 0.45 and both clamps (0.54, 0.65) exceed it — so the document
invariant `confidence ∈ [0, 1]` holds with strict slack at both ends. -/
theorem pipeline_confidence_bounds (input : String) :
    0.45 ≤ (analyzeSituation input).confidence
    ∧ (analyzeSituation input).confidence ≤ 0.95
    ∧ 0 < (analyzeSituation input).confidence
    ∧ (analyzeSituation input).confidence < 1 := by
  have hconf := analyzeSituation_confidence input
  have hlb := specBase_le_calculateConfidence (classifyIntent input) input
  have hub := (calculateConfidence_bounds (classifyIntent input) input).2
  cases h : classifyIntent input with
  | incident =>
    have hc : (analyzeSituation input).confidence
        = calculateConfidence Intent.incident input := by rw [hconf, h]
    rw [h] at hlb hub
    have hsb : specBase Intent.incident = 0.7 := rfl
    rw [hsb] at hlb
    rw [hc]
    exact ⟨by linarith, hub, by linarith, by linarith⟩
  | overview =>
    have hc : (analyzeSituation input).confidence
        = calculateConfidence Intent.overview input := by rw [hconf, h]
    rw [h] at hlb hub
    have hsb : specBase Intent.overview = 0.7 := rfl
    rw [hsb] at hlb
    rw [hc]
    exact ⟨by linarith, hub, by linarith, by linarith⟩
  | investigation =>
    have hc : (analyzeSituation input).confidence
        = min (calculateConfidence Intent.investigation input) 0.54 := by
      rw [hconf, h]
    rw [h] at hlb hub
    have hsb : specBase Intent.investigation = 0.45 := rfl
    rw [hsb] at hlb
    rw [hc]
    have hminl := min_le_left
      (calculateConfidence Intent.investigation input) (0.54:ℚ)
    have hfl : (0.45:ℚ)
        ≤ min (calculateConfidence Intent.investigation input) 0.54 :=
      le_min hlb (by norm_num)
    exact ⟨hfl, by linarith, by linarith, by linarith⟩
  | escalation =>
    have hc : (analyzeSituation input).confidence
        = calculateConfidence Intent.escalation input := by rw [hconf, h]
    rw [h] at hlb hub
    have hsb : specBase Intent.escalation = 0.7 := rfl
    rw [hsb] at hlb
    rw [hc]
    exact ⟨by linarith, hub, by linarith, by linarith⟩
  | exploration =>
    have hc : (analyzeSituation input).confidence
        = min (calculateConfidence Intent.exploration input) 0.65 := by
      rw [hconf, h]
    rw [h] at hlb hub
    have hsb : specBase Intent.exploration = 0.6 := rfl
    rw [hsb] at hlb
    rw [hc]
    have hminl := min_le_left
      (calculateConfidence Intent.exploration input) (0.65:ℚ)
    have hfl : (0.45:ℚ)
        ≤ min (calculateConfidence Intent.exploration input) 0.65 :=
      le_min (by linarith) (by norm_num)
    exact ⟨hfl, by linarith, by linarith, by linarith⟩

/-! ## Composition engine lemmas -/

/-- The registry skip of a layout renderer: mapping rendered cells back
to their entries yields the registered entries, in order. -/
theorem cells_entries_of (mk : UIComponentSpec → Cell)
    (hmk : ∀ c, (mk c).entry = c) (l : List UIComponentSpec) :
    (l.filterMap (fun c =>
        if resolveSucceeds c.type then some (mk c) else none)).map Cell.entry
      = l.filter (fun c => resolveSucceeds c.type) := by
  induction l with
  | nil => rfl
  | cons x t ih =>
    by_cases h : resolveSucceeds x.type
    · simp [List.filterMap_cons, h, List.filter_cons, ih, hmk]
    · simp [List.filterMap_cons, h, List.filter_cons, ih]

theorem gridCells_entries (l : List UIComponentSpec) :
    (gridCells l).map Cell.entry
      = l.filter (fun c => resolveSucceeds c.type) := by
  unfold gridCells
  exact cells_entries_of _ (fun c => rfl) l

theorem stackCells_entries (l : List UIComponentSpec) :
    (stackCells l).map Cell.entry
      = l.filter (fun c => resolveSucceeds c.type) := by
  unfold stackCells
  exact cells_entries_of _ (fun c => rfl) l

theorem splitColumnCells_entries (l : List UIComponentSpec) :
    (splitColumnCells l).map Cell.entry
      = l.filter (fun c => resolveSucceeds c.type) := by
  unfold splitColumnCells
  exact cells_entries_of _ (fun c => rfl) l

theorem splitPlan_entries (l : List UIComponentSpec) :
    ((splitPlan l).left ++ (splitPlan l).right).map Cell.entry
      = l.filter (fun c => resolveSucceeds c.type) := by
  simp only [splitPlan, List.map_append]
  rw [splitColumnCells_entries, splitColumnCells_entries,
    ← List.filter_append, List.take_append_drop]

/-- A priority-sorted list is the concatenation of its low-priority
(`≤ 2`) and high-priority (`> 2`) parts. -/
theorem filter_le_append_filter_gt (l : List UIComponentSpec)
    (h : l.Pairwise prioLE) :
    l.filter (fun c => c.priority ≤ 2)
        ++ l.filter (fun c => 2 < c.priority) = l := by
  induction l with
  | nil => rfl
  | cons x t ih =>
    rw [List.pairwise_cons] at h
    obtain ⟨hx, ht⟩ := h
    by_cases hp : x.priority ≤ 2
    · have h2 : ¬(2 < x.priority) := by omega
      simp [List.filter_cons, hp, h2, ih ht]
    · have h2 : 2 < x.priority := by omega
      have hf1 : t.filter (fun c => c.priority ≤ 2) = [] := by
        apply List.filter_eq_nil_iff.2
        intro b hb
        have hxb := hx b hb
        simp only [prioLE] at hxb
        simp only [decide_eq_true_eq]
        omega
      have hf2 : t.filter (fun c => 2 < c.priority) = t := by
        apply List.filter_eq_self.2
        intro b hb
        have hxb := hx b hb
        simp only [prioLE] at hxb
        simp only [decide_eq_true_eq]
        omega
      simp [List.filter_cons, hp, h2, hf1, hf2]

theorem overlayPlan_entries (l : List UIComponentSpec)
    (h : l.Pairwise prioLE) :
    ((overlayPlan l).overlay ++ (overlayPlan l).base).map Cell.entry
      = l.filter (fun c => resolveSucceeds c.type) := by
  have h1 : ((overlayPlan l).overlay).map Cell.entry
      = (overlayPartition l).1.filter (fun c => resolveSucceeds c.type) := by
    unfold overlayPlan
    exact cells_entries_of _ (fun c => rfl) _
  have h2 : ((overlayPlan l).base).map Cell.entry
      = (overlayPartition l).2.filter (fun c => resolveSucceeds c.type) := by
    unfold overlayPlan
    exact cells_entries_of _ (fun c => rfl) _
  rw [List.map_append, h1, h2, ← List.filter_append]
  unfold overlayPartition
  rw [filter_le_append_filter_gt l h]

/-- Steps 1–2 of the engine produce a priority-sorted list. -/
theorem visibleSorted_pairwise (doc : UISchema) :
    (visibleSorted doc).Pairwise prioLE :=
  List.sorted_insertionSort prioLE _

/-- The sort permutes the visible components. -/
theorem visibleSorted_perm (doc : UISchema) :
    List.Perm (visibleSorted doc)
      (doc.components.filter (fun c => c.visibility = Visibility.visible)) :=
  List.perm_insertionSort prioLE _

/-- Every layout's placement enumerates, in ascending-priority reading
order, exactly the registered entries of the priority-sorted visible
list. -/
theorem placedEntries_strategyPlacement (k : LayoutKind) (doc : UISchema) :
    placedEntries (strategyPlacement k (visibleSorted doc))
      = (visibleSorted doc).filter (fun c => resolveSucceeds c.type) := by
  cases k with
  | grid => exact gridCells_entries _
  | stack => exact stackCells_entries _
  | split => exact splitPlan_entries _
  | overlay => exact overlayPlan_entries _ (visibleSorted_pairwise doc)

/-- What the full engine places: the registered/resolvable visible
entries under whichever strategy the layout string selects (the grid
fallback included), and nothing when the layout string hits an inherited
`Object.prototype` member of `layoutMap`. -/
theorem placedEntries_composePlacement (doc : UISchema) :
    placedEntries (composePlacement doc)
      = if doc.layout ∈ objectProtoKeys then []
        else (visibleSorted doc).filter (fun c => resolveSucceeds c.type) := by
  by_cases hp : doc.layout ∈ objectProtoKeys
  · rw [if_pos hp]
    have h1 : doc.layout ≠ "grid" := by
      rintro he; rw [he] at hp; revert hp; decide
    have h2 : doc.layout ≠ "stack" := by
      rintro he; rw [he] at hp; revert hp; decide
    have h3 : doc.layout ≠ "split" := by
      rintro he; rw [he] at hp; revert hp; decide
    have h4 : doc.layout ≠ "overlay" := by
      rintro he; rw [he] at hp; revert hp; decide
    unfold composePlacement lookupLayout
    rw [if_neg h1, if_neg h2, if_neg h3, if_neg h4, if_pos hp]
    rfl
  · rw [if_neg hp]
    unfold composePlacement lookupLayout
    by_cases h1 : doc.layout = "grid"
    · rw [if_pos h1]
      exact placedEntries_strategyPlacement .grid doc
    · rw [if_neg h1]
      by_cases h2 : doc.layout = "stack"
      · rw [if_pos h2]
        exact placedEntries_strategyPlacement .stack doc
      · rw [if_neg h2]
        by_cases h3 : doc.layout = "split"
        · rw [if_pos h3]
          exact placedEntries_strategyPlacement .split doc
        · rw [if_neg h3]
          by_cases h4 : doc.layout = "overlay"
          · rw [if_pos h4]
            exact placedEntries_strategyPlacement .overlay doc
          · rw [if_neg h4, if_neg hp]
            exact placedEntries_strategyPlacement .grid doc

/-- Stability of the priority sort: restricting to any one priority value
recovers the original relative order. -/
theorem filter_prio_sortByPriority (m : List UIComponentSpec) (p : Int) :
    (sortByPriority m).filter (fun c => c.priority == p)
      = m.filter (fun c => c.priority == p) := by
  have hperm : List.Perm
      ((sortByPriority m).filter (fun c => c.priority == p))
      (m.filter (fun c => c.priority == p)) :=
    (List.perm_insertionSort prioLE m).filter _
  have hpw : (m.filter (fun c => c.priority == p)).Pairwise prioLE := by
    apply List.pairwise_of_forall_mem_list
    intro a ha b hb
    have ha2 := (List.mem_filter.1 ha).2
    have hb2 := (List.mem_filter.1 hb).2
    simp only [beq_iff_eq] at ha2 hb2
    simp only [prioLE, ha2, hb2, le_refl]
  have hsub : List.Sublist (m.filter (fun c => c.priority == p))
      (sortByPriority m) :=
    List.sublist_insertionSort hpw (List.filter_sublist m)
  have hidem : (m.filter (fun c => c.priority == p)).filter
      (fun c => c.priority == p) = m.filter (fun c => c.priority == p) :=
    List.filter_eq_self.2 (fun a ha => (List.mem_filter.1 ha).2)
  have hsub2 : List.Sublist (m.filter (fun c => c.priority == p))
      ((sortByPriority m).filter (fun c => c.priority == p)) := by
    have h3 := hsub.filter (fun c => c.priority == p)
    rwa [hidem] at h3
  exact (hsub2.eq_of_length hperm.length_eq.symm).symm

/-- Two commutations of the visibility/registry/priority filters. -/
theorem filter_reg_comm_prio (m : List UIComponentSpec) (p : Int) :
    (m.filter (fun c => resolveSucceeds c.type)).filter
        (fun c => c.priority == p)
      = (m.filter (fun c => c.priority == p)).filter
          (fun c => resolveSucceeds c.type) := by
  rw [List.filter_filter, List.filter_filter]
  apply List.filter_congr
  intro a _
  rw [Bool.and_comm]

theorem filter_vis_then_reg (m : List UIComponentSpec) :
    (m.filter (fun c => c.visibility = Visibility.visible)).filter
        (fun c => resolveSucceeds c.type)
      = m.filter (fun c =>
          decide (c.visibility = Visibility.visible)
            && resolveSucceeds c.type) := by
  rw [List.filter_filter]
  apply List.filter_congr
  intro a _
  rw [Bool.and_comm]

/-- C6 counterexample: `protoTypeDoc` has one visible entry whose type,
"toString", is not one of the ten component types present in the
registry, yet the composed placement renders a cell for it — the
prototype-chain lookup `componentRegistry["toString"] ?? null` resolves
to the inherited `Object.prototype.toString`, so the skip-on-unknown
guard does not fire.  This refutes "the composed placement contains
exactly the entries whose visibility is visible and whose type is
present in the registry". -/
theorem placement_contains_unregistered_type :
    registeredTypes.contains "toString" = false
    ∧ placedEntries (composePlacement protoTypeDoc)
        = [⟨"x1", "toString", 1, Visibility.visible⟩] :=
  ⟨by decide, by decide⟩

/-- C6 (amended): for every document and each of the four layout
strategies, the placement contains exactly the visible entries for which
the registry lookup resolves — one of the ten registered types or, via
the JS prototype chain, an `Object.prototype` property name — each
exactly once, no duplication, no loss; hidden and conditional entries
never appear; and the placed entries are in ascending-priority order
with equal priorities keeping their original relative order. -/
theorem composition_roundtrip_stable_order (doc : UISchema)
    (k : LayoutKind) :
    List.Perm (placedEntries (strategyPlacement k (visibleSorted doc)))
        (doc.components.filter (fun c =>
            decide (c.visibility = Visibility.visible)
              && resolveSucceeds c.type))
    ∧ (∀ e ∈ placedEntries (strategyPlacement k (visibleSorted doc)),
        e.visibility = Visibility.visible ∧ resolveSucceeds e.type = true)
    ∧ (placedEntries (strategyPlacement k (visibleSorted doc))).Pairwise
        prioLE
    ∧ ∀ p : Int,
        (placedEntries (strategyPlacement k (visibleSorted doc))).filter
            (fun c => c.priority == p)
          = (doc.components.filter (fun c =>
              decide (c.visibility = Visibility.visible)
                && resolveSucceeds c.type)).filter
              (fun c => c.priority == p) := by
  have hE := placedEntries_strategyPlacement k doc
  refine ⟨?_, ?_, ?_, ?_⟩
  · rw [hE, ← filter_vis_then_reg]
    exact (visibleSorted_perm doc).filter _
  · intro e he
    rw [hE] at he
    have h1 := List.mem_filter.1 he
    have h2 := (visibleSorted_perm doc).mem_iff.1 h1.1
    have h3 := List.mem_filter.1 h2
    exact ⟨of_decide_eq_true h3.2, h1.2⟩
  · rw [hE]
    exact (visibleSorted_pairwise doc).sublist (List.filter_sublist _)
  · intro p
    rw [hE, ← filter_vis_then_reg, filter_reg_comm_prio, filter_reg_comm_prio]
    have hstab : (visibleSorted doc).filter (fun c => c.priority == p)
        = (doc.components.filter
            (fun c => c.visibility = Visibility.visible)).filter
            (fun c => c.priority == p) :=
      filter_prio_sortByPriority _ p
    rw [hstab]

/-- Witness for the membership clauses of
`composition_roundtrip_stable_order`, instantiated at a concrete
document, strategy and entry. -/
theorem composition_roundtrip_stable_order_witness :
    (⟨"dup", "StatusBanner", 1, Visibility.visible⟩
        : UIComponentSpec).visibility = Visibility.visible
    ∧ resolveSucceeds (⟨"dup", "StatusBanner", 1, Visibility.visible⟩
        : UIComponentSpec).type = true :=
  (composition_roundtrip_stable_order badDoc LayoutKind.grid).2.1
    ⟨"dup", "StatusBanner", 1, Visibility.visible⟩ (by decide)

/-- C7: under the overlay layout, every visible entry with priority ≤ 2
goes to the overlay layer and every visible entry with priority > 2 to
the base layer; no entry is in both; each layer preserves the relative
order of the priority-sorted input; overlay cells are full-width and base
cells half-width. -/
theorem overlay_partition_by_priority (doc : UISchema) :
    composePlacement { doc with layout := "overlay" }
        = Placement.overlay (overlayPlan (visibleSorted doc))
    ∧ (∀ e ∈ doc.components, e.visibility = Visibility.visible →
        (e.priority ≤ 2 → e ∈ (overlayPartition (visibleSorted doc)).1)
        ∧ (2 < e.priority → e ∈ (overlayPartition (visibleSorted doc)).2))
    ∧ (∀ e ∈ (overlayPartition (visibleSorted doc)).1, e.priority ≤ 2)
    ∧ (∀ e ∈ (overlayPartition (visibleSorted doc)).2, 2 < e.priority)
    ∧ (∀ e : UIComponentSpec,
        ¬(e ∈ (overlayPartition (visibleSorted doc)).1
          ∧ e ∈ (overlayPartition (visibleSorted doc)).2))
    ∧ List.Sublist (overlayPartition (visibleSorted doc)).1
        (visibleSorted doc)
    ∧ List.Sublist (overlayPartition (visibleSorted doc)).2
        (visibleSorted doc)
    ∧ (∀ cell ∈ (overlayPlan (visibleSorted doc)).overlay,
        cell.width = Width.full ∧ cell.entry.priority ≤ 2)
    ∧ (∀ cell ∈ (overlayPlan (visibleSorted doc)).base,
        cell.width = Width.half ∧ 2 < cell.entry.priority) := by
  refine ⟨rfl, ?_, ?_, ?_, ?_, List.filter_sublist _, List.filter_sublist _,
    ?_, ?_⟩
  · intro e he hvis
    have h1 : e ∈ visibleSorted doc :=
      (visibleSorted_perm doc).mem_iff.2
        (List.mem_filter.2 ⟨he, decide_eq_true hvis⟩)
    constructor
    · intro hp
      exact List.mem_filter.2 ⟨h1, decide_eq_true hp⟩
    · intro hp
      exact List.mem_filter.2 ⟨h1, decide_eq_true hp⟩
  · intro e he
    have he' : e ∈ List.filter (fun c => decide (c.priority ≤ 2))
        (visibleSorted doc) := he
    exact of_decide_eq_true (List.mem_filter.1 he').2
  · intro e he
    have he' : e ∈ List.filter (fun c => decide (2 < c.priority))
        (visibleSorted doc) := he
    exact of_decide_eq_true (List.mem_filter.1 he').2
  · intro e ⟨h1, h2⟩
    have h1' : e ∈ List.filter (fun c => decide (c.priority ≤ 2))
        (visibleSorted doc) := h1
    have h2' : e ∈ List.filter (fun c => decide (2 < c.priority))
        (visibleSorted doc) := h2
    have hp1 : e.priority ≤ 2 := of_decide_eq_true (List.mem_filter.1 h1').2
    have hp2 : 2 < e.priority := of_decide_eq_true (List.mem_filter.1 h2').2
    omega
  · intro cell hc
    obtain ⟨a, ha, hfa⟩ := List.mem_filterMap.1 hc
    by_cases hr : resolveSucceeds a.type
    · rw [if_pos hr] at hfa
      obtain rfl := Option.some_injective _ hfa
      have ha' : a ∈ List.filter (fun c => decide (c.priority ≤ 2))
          (visibleSorted doc) := ha
      exact ⟨rfl, of_decide_eq_true (List.mem_filter.1 ha').2⟩
    · rw [if_neg hr] at hfa
      exact Option.noConfusion hfa
  · intro cell hc
    obtain ⟨a, ha, hfa⟩ := List.mem_filterMap.1 hc
    by_cases hr : resolveSucceeds a.type
    · rw [if_pos hr] at hfa
      obtain rfl := Option.some_injective _ hfa
      have ha' : a ∈ List.filter (fun c => decide (2 < c.priority))
          (visibleSorted doc) := ha
      exact ⟨rfl, of_decide_eq_true (List.mem_filter.1 ha').2⟩
    · rw [if_neg hr] at hfa
      exact Option.noConfusion hfa

/-- Witness for the partition clause of `overlay_partition_by_priority`,
instantiated at a concrete document and entry. -/
theorem overlay_partition_by_priority_witness :
    (⟨"dup", "StatusBanner", 1, Visibility.visible⟩ : UIComponentSpec)
      ∈ (overlayPartition (visibleSorted badDoc)).1 :=
  ((overlay_partition_by_priority badDoc).2.1
    ⟨"dup", "StatusBanner", 1, Visibility.visible⟩ (by decide)
    (by decide)).1 (by decide)

/-- C8 counterexample: the layout value "toString" is not one of the
four recognized strategies, yet the engine does not apply the grid
strategy — `layoutMap["toString"]` resolves via the prototype chain to
the inherited `Object.prototype.toString`, which is non-nullish, so the
`?? GridLayout` fallback never fires and the inherited member (not a
layout strategy) is selected; for other inherited names React can even
throw.  This refutes "applies the grid strategy's placement algorithm
and never raises an error" for every unrecognized layout value. -/
theorem inherited_layout_skips_grid_fallback :
    ("toString" : String) ∉ knownLayouts
    ∧ composePlacement protoLayoutDoc
        = Placement.notAStrategy "toString"
            [⟨"banner-1", "StatusBanner", 1, Visibility.visible⟩]
    ∧ composePlacement protoLayoutDoc
        ≠ composePlacement { protoLayoutDoc with layout := "grid" } :=
  ⟨by decide, by decide, by decide⟩

/-- C8 (amended): a document whose layout value is neither one of the
four recognized strategies nor an `Object.prototype` property name is
composed with the grid strategy's placement algorithm, and composition
is total (no error path); when the unrecognized layout value collides
with a name inherited from `Object.prototype`, the `?? GridLayout`
fallback does not engage and no layout strategy is applied. -/
theorem unknown_layout_defaults_to_grid (doc : UISchema)
    (h : doc.layout ∉ knownLayouts) :
    (doc.layout ∉ objectProtoKeys →
      composePlacement doc = composePlacement { doc with layout := "grid" })
    ∧ (doc.layout ∈ objectProtoKeys →
      composePlacement doc
        = Placement.notAStrategy doc.layout (visibleSorted doc)) := by
  simp only [knownLayouts, List.mem_cons, List.not_mem_nil, or_false,
    not_or] at h
  obtain ⟨h1, h2, h3, h4⟩ := h
  constructor
  · intro hp
    unfold composePlacement lookupLayout
    rw [if_neg h1, if_neg h2, if_neg h3, if_neg h4, if_neg hp]
    rfl
  · intro hp
    unfold composePlacement lookupLayout
    rw [if_neg h1, if_neg h2, if_neg h3, if_neg h4, if_pos hp]
    rfl

/-- Witness for `unknown_layout_defaults_to_grid`: the grid-fallback
clause at the layout name "diagonal" and the inherited-name clause at
"valueOf". -/
theorem unknown_layout_defaults_to_grid_witness :
    composePlacement { badDoc with layout := "diagonal" }
        = composePlacement
            { { badDoc with layout := "diagonal" } with layout := "grid" }
    ∧ composePlacement { badDoc with layout := "valueOf" }
        = Placement.notAStrategy "valueOf"
            (visibleSorted { badDoc with layout := "valueOf" }) :=
  ⟨(unknown_layout_defaults_to_grid { badDoc with layout := "diagonal" }
      (by decide)).1 (by decide),
    (unknown_layout_defaults_to_grid { badDoc with layout := "valueOf" }
      (by decide)).2 (by decide)⟩

/-- C9 counterexample: `badDoc` is malformed (confidence 1.5 and two
entries sharing the id "dup"), yet the engine raises no validation
failure — its composition has no error channel at all — and renders a
normal grid arrangement from it. -/
theorem malformed_doc_composed_without_error :
    isMalformedDoc badDoc = true
    ∧ composePlacement badDoc
        = Placement.grid
            [ ⟨⟨"dup", "StatusBanner", 1, Visibility.visible⟩, Width.full,
                60⟩,
              ⟨⟨"dup", "MetricCard", 2, Visibility.visible⟩, Width.quarter,
                120⟩ ] := by
  constructor
  · simp [isMalformedDoc, badDoc]
  · rfl

/-- C9 amended: the composition engine performs no document validation —
a malformed document (out-of-range confidence or duplicate ids) is
composed through exactly the same layout-dispatch pipeline as a
well-formed one, with no error surfaced: its placement enumerates the
resolvable visible entries, or none when the layout string itself
collides with an inherited `Object.prototype` name — precisely the
behavior a well-formed document with the same layout and components
gets. -/
theorem malformed_doc_composed_like_any_other (doc : UISchema)
    (_h : isMalformedDoc doc = true) :
    placedEntries (composePlacement doc)
      = if doc.layout ∈ objectProtoKeys then []
        else (visibleSorted doc).filter (fun c => resolveSucceeds c.type) :=
  placedEntries_composePlacement doc

/-- Witness for `malformed_doc_composed_like_any_other` at `badDoc`. -/
theorem malformed_doc_composed_like_any_other_witness :
    isMalformedDoc badDoc = true
    ∧ placedEntries (composePlacement badDoc)
        = if badDoc.layout ∈ objectProtoKeys then []
          else (visibleSorted badDoc).filter
              (fun c => resolveSucceeds c.type) :=
  ⟨by simp [isMalformedDoc, badDoc],
    malformed_doc_composed_like_any_other badDoc
      (by simp [isMalformedDoc, badDoc])⟩

end Sentinel

